import Mathlib

/-!
# Pract_NodeBackend: users, devices and telemetry ingestion

A shallow embedding of `src/index.js` (the Express handlers) together with the two
Mongoose schemas `src/models/user.js` and `src/models/database.js`.

Modelling decisions.

* The two collections are lists of documents in natural (insertion) order; `findOne`
  answers the first match, `find` every match, `findOneAndDelete` removes the first match.
* Request fields are carried at the types the schemas give them (`String`, `Number`,
  `Boolean`, `ObjectId`), each of them optional in a body, as `req.body.x` may be
  `undefined`.  Numbers are only ever stored and returned, never computed with.
* Everything the handlers take from outside the process is a field of `Env`: the clock,
  the ObjectId generator, `crypto.randomBytes`, `jsonwebtoken`, `bcrypt`, the error
  objects built by the libraries, and `dbFault`, which lets each store call throw.
  A store call throws when the connection is lost, and also when Mongoose cannot cast
  a submitted value to the type of its path; the model does not decide which raw values
  cast, so such a request is a request whose store call throws.  `Env.storeUp` says
  that no store call throws.
* `console.error` output is kept in `Result.log`, separate from the response.
-/

namespace PractNodeBackend

/-! ## Data model (`src/models/*.js`) -/

/-- A Mongoose ObjectId, kept abstract. -/
abbrev ObjectId := Nat

/-- A JavaScript `Date`, as milliseconds since the epoch. -/
abbrev Date := Nat

/-- A JavaScript number that is only stored and returned. -/
abbrev JsNumber := Int

/-- A thrown JavaScript `Error`: the handlers read `message` and `stack` only. -/
structure JsError where
  message : String
  stack : String
deriving DecidableEq, Repr

/-- A stored document of `UserSchema` (`name` and `email` are required). -/
structure User where
  _id : ObjectId
  name : String
  email : String
  password : Option String
  quote : Option String
deriving DecidableEq, Repr

/-- A stored sub-document of `DynamicDataSchema`. -/
structure DynamicData where
  timestamp : Date
  temperature : Option JsNumber
  humidity : Option JsNumber
  soilMoisture : Option JsNumber
  powerState : Option Bool
deriving DecidableEq, Repr

/-- A stored document of `DeviceSchema` (`deviceName`, `apiKey`, `userId` are required). -/
structure Device where
  _id : ObjectId
  deviceName : String
  deviceCode : Option String
  deviceNumber : Option JsNumber
  apiKey : String
  lastConnected : Date
  location : Option String
  cropType : Option String
  dynamicData : List DynamicData
  userId : ObjectId
deriving DecidableEq, Repr

/-- The two collections, `user-profiles` and `user-device-data`. -/
structure Store where
  users : List User
  devices : List Device
deriving DecidableEq, Repr

/-- The document built by `new User(...)` in `/register`, before validation. -/
structure NewUser where
  _id : ObjectId
  name : Option String
  email : Option String
  password : Option String
deriving DecidableEq, Repr

/-- The document built by `new DeviceModel(...)` in `/newDevice`, before validation. -/
structure NewDevice where
  _id : ObjectId
  deviceName : Option String
  deviceCode : Option String
  deviceNumber : Option JsNumber
  apiKey : String
  lastConnected : Date
  location : Option String
  cropType : Option String
  dynamicData : List DynamicData
  userId : ObjectId
deriving DecidableEq, Repr

/-! ## Requests and responses -/

/-- The fields the handlers read from `req.body`. -/
structure ReqBody where
  name : Option String := none
  email : Option String := none
  password : Option String := none
  apiKey : Option String := none
  temperature : Option JsNumber := none
  humidity : Option JsNumber := none
  soilMoisture : Option JsNumber := none
  powerState : Option Bool := none
  deviceName : Option String := none
  deviceCode : Option String := none
  deviceNumber : Option JsNumber := none
  location : Option String := none
  cropType : Option String := none
deriving DecidableEq, Repr

/-- A request: the `x-access-token` header and the JSON body. -/
structure Req where
  token : Option String := none
  body : ReqBody := {}
deriving DecidableEq, Repr

/-- The six routes of `index.js`, with their path parameters. -/
inductive Route where
  | register
  | login
  | newDevice
  | devices
  | deviceByName (deviceName : String)
  | deleteDevice (id : ObjectId)
deriving DecidableEq, Repr

/-- A value of a field of a JSON response body. -/
inductive JsonValue where
  | str (s : String)
  | doc (d : Device)
deriving DecidableEq, Repr

/-- A JSON response body: an object, or (for `GET /devices`) an array of documents. -/
inductive Body where
  | obj (fields : List (String × JsonValue))
  | arr (docs : List Device)
deriving DecidableEq, Repr

/-- An HTTP response: `res.status(n).json(body)`; `res.json(body)` has status 200. -/
structure Response where
  status : Nat
  body : Body
deriving DecidableEq, Repr

/-- What a handler leaves behind: the response, the store and the `console.error` lines. -/
structure Result where
  res : Response
  store : Store
  log : List String
deriving DecidableEq, Repr

/-- The claims of a token: `{ userId, name, email }`. -/
structure JwtPayload where
  userId : ObjectId
  name : String
  email : String
deriving DecidableEq, Repr

/-- The store calls made by the handlers. -/
inductive DbCall where
  | userFindById
  | userFindOne
  | userSave
  | deviceFindOne
  | deviceSave
  | deviceFind
  | deviceFindOneAndDelete
deriving DecidableEq, Repr

/-- Everything a handler takes from outside the process. -/
structure Env where
  /-- The value of `process.env.JWT_SECRET`. -/
  JWT_SECRET : Option String
  /-- The value of `new Date()` and of `Date.now`. -/
  now : Date
  /-- The `_id` Mongoose gives to the next new document. -/
  newObjectId : ObjectId
  /-- The bytes answered by `crypto.randomBytes(n)`. -/
  randomBytes : Nat → List Nat
  /-- The function `jwt.sign(payload, secret, { expiresIn: 1h })`. -/
  jwtSign : JwtPayload → String → String
  /-- The function `jwt.verify(token, secret)`; `none` when it throws. -/
  jwtVerify : String → String → Option JwtPayload
  /-- The function `bcrypt.hash(data, 10)` on a string. -/
  bcryptHash : String → String
  /-- The function `bcrypt.compare(data, hash)` on two strings. -/
  bcryptCompare : String → String → Bool
  /-- The error `bcrypt` throws when an argument is `undefined`. -/
  bcryptArgError : JsError
  /-- The `ValidationError` of a required path that is missing. -/
  validationError : String → JsError
  /-- The duplicate key error (E11000) of a unique index. -/
  duplicateKeyError : String → JsError
  /-- The error a store call throws, if it throws: a lost connection, or a submitted
  value that cannot be cast to the type of its path. What the schema validation of a
  well-typed document and the unique indexes refuse is decided by the model itself. -/
  dbFault : DbCall → Option JsError

/-- Line 15: `process.env.JWT_SECRET || 'defaultSecret123'`. -/
def secret (env : Env) : String :=
  match env.JWT_SECRET with
  | some s => if s = "" then "defaultSecret123" else s
  | none => "defaultSecret123"

/-- A store call: throws when the environment makes it fail. -/
def dbCall (env : Env) (c : DbCall) : Except JsError Unit :=
  match env.dbFault c with
  | some e => .error e
  | none => .ok ()

/-- No store call throws. -/
def Env.storeUp (env : Env) : Prop := ∀ c, env.dbFault c = none

/-! ## The models' operations -/

/-- The call `User.findById(id)`. -/
def User.findById (env : Env) (users : List User) (id : ObjectId) :
    Except JsError (Option User) := do
  dbCall env .userFindById
  pure (users.find? (fun u => u._id == id))

/-- The call `User.findOne({ email })`. An `undefined` email matches no stored user,
each of which has an email. -/
def User.findOne (env : Env) (users : List User) (email : Option String) :
    Except JsError (Option User) := do
  dbCall env .userFindOne
  match email with
  | none => pure none
  | some e => pure (users.find? (fun u => u.email == e))

/-- A required `String` path: present and not the empty string. -/
def requiredString (env : Env) (path : String) : Option String → Except JsError String
  | some s => if s = "" then .error (env.validationError path) else .ok s
  | none => .error (env.validationError path)

/-- The call `newUser.save()`: validation (`name`, `email` required), then the insert,
which the unique indexes on `_id` and `email` may refuse. Answers the stored document
and the collection with it. -/
def User.save (env : Env) (users : List User) (u : NewUser) :
    Except JsError (User × List User) := do
  let name ← requiredString env "name" u.name
  let email ← requiredString env "email" u.email
  dbCall env .userSave
  if users.any (fun x => x._id == u._id) then
    .error (env.duplicateKeyError "_id")
  else if users.any (fun x => x.email == email) then
    .error (env.duplicateKeyError "email")
  else
    let saved : User :=
      { _id := u._id, name := name, email := email, password := u.password, quote := none }
    pure (saved, users ++ [saved])

/-- The stored form of a new device document whose `deviceName` is `name`. -/
def NewDevice.stored (d : NewDevice) (name : String) : Device :=
  { _id := d._id, deviceName := name, deviceCode := d.deviceCode,
    deviceNumber := d.deviceNumber, apiKey := d.apiKey, lastConnected := d.lastConnected,
    location := d.location, cropType := d.cropType, dynamicData := d.dynamicData,
    userId := d.userId }

namespace DeviceModel

/-- The call `DeviceModel.findOne({ apiKey })`. An `undefined` apiKey matches no stored
device, each of which has an apiKey. -/
def findOneByApiKey (env : Env) (devices : List Device) (apiKey : Option String) :
    Except JsError (Option Device) := do
  dbCall env .deviceFindOne
  match apiKey with
  | none => pure none
  | some k => pure (devices.find? (fun d => d.apiKey == k))

/-- The call `DeviceModel.findOne({ deviceName })`. -/
def findOneByName (env : Env) (devices : List Device) (deviceName : String) :
    Except JsError (Option Device) := do
  dbCall env .deviceFindOne
  pure (devices.find? (fun d => d.deviceName == deviceName))

/-- The call `DeviceModel.find({ userId })`. -/
def find (env : Env) (devices : List Device) (userId : ObjectId) :
    Except JsError (List Device) := do
  dbCall env .deviceFind
  pure (devices.filter (fun d => d.userId == userId))

/-- The call `DeviceModel.findOneAndDelete({ _id: id, userId })`: the removed document
(if any) and the collection without it. -/
def findOneAndDelete (env : Env) (devices : List Device) (id userId : ObjectId) :
    Except JsError (Option Device × List Device) := do
  dbCall env .deviceFindOneAndDelete
  let p := fun (d : Device) => d._id == id && d.userId == userId
  pure (devices.find? p, devices.eraseP p)

/-- Write `dynamicData` into the first document with the given `_id`. -/
def updateDynamicData (id : ObjectId) (data : List DynamicData) : List Device → List Device
  | [] => []
  | d :: ds =>
    if d._id == id then { d with dynamicData := data } :: ds
    else d :: updateDynamicData id data ds

/-- The call `existingDevice.save()` after a push on `dynamicData`: the one modified
path is written to the stored document with that `_id`. -/
def saveExisting (env : Env) (devices : List Device) (doc : Device) :
    Except JsError (List Device) := do
  dbCall env .deviceSave
  pure (updateDynamicData doc._id doc.dynamicData devices)

/-- The call `newDevice.save()`: validation (`deviceName` required), then the insert,
which the unique indexes on `_id` and `deviceName` may refuse. The schema declares
no unique index on `apiKey`. -/
def saveNew (env : Env) (devices : List Device) (d : NewDevice) :
    Except JsError (List Device) := do
  let deviceName ← requiredString env "deviceName" d.deviceName
  dbCall env .deviceSave
  if devices.any (fun x => x._id == d._id) then
    .error (env.duplicateKeyError "_id")
  else if devices.any (fun x => x.deviceName == deviceName) then
    .error (env.duplicateKeyError "deviceName")
  else
    pure (devices ++ [d.stored deviceName])

end DeviceModel

/-! ## `index.js` -/

/-- Build `res.status(status).json({ ... })` for an object body. -/
def json (status : Nat) (fields : List (String × JsonValue)) : Response :=
  { status := status, body := .obj fields }

/-- The sixteen hexadecimal digits, in order. -/
def hexDigits : List Char :=
  ['0', '1', '2', '3', '4', '5', '6', '7', '8', '9', 'a', 'b', 'c', 'd', 'e', 'f']

/-- The two hexadecimal digits of one byte. -/
def byteToHex (b : Nat) : List Char :=
  [hexDigits.getD (b % 256 / 16) '0', hexDigits.getD (b % 16) '0']

/-- The method `buffer.toString('hex')`. -/
def toHex (bytes : List Nat) : String :=
  String.mk (bytes.flatMap byteToHex)

/-- Lines 46-48: `crypto.randomBytes(16).toString('hex')`. -/
def generateApiKey (env : Env) : String :=
  toHex (env.randomBytes 16)

/-- Lines 23-43, the authentication middleware: either the response it sends itself,
or the user it puts in `req.user` before calling `next()`. -/
def authenticateUser (env : Env) (st : Store) (req : Req) : Except Response User :=
  match req.token with
  | none => .error (json 401 [("error", .str "Unauthorized: No token provided")])
  | some token =>
    if token = "" then
      .error (json 401 [("error", .str "Unauthorized: No token provided")])
    else
      match env.jwtVerify token (secret env) with
      | none => .error (json 401 [("error", .str "Unauthorized: Invalid token")])
      | some decoded =>
        match User.findById env st.users decoded.userId with
        | .error _ => .error (json 401 [("error", .str "Unauthorized: Invalid token")])
        | .ok none => .error (json 401 [("error", .str "Unauthorized: User not found")])
        | .ok (some user) => .ok user

/-- The call `bcrypt.hash(req.body.password, 10)`: throws on an `undefined` password. -/
def bcryptHash (env : Env) : Option String → Except JsError String
  | some p => .ok (env.bcryptHash p)
  | none => .error env.bcryptArgError

/-- The call `bcrypt.compare(req.body.password, user.password)`: throws when either
argument is `undefined`. -/
def bcryptCompare (env : Env) : Option String → Option String → Except JsError Bool
  | some p, some h => .ok (env.bcryptCompare p h)
  | _, _ => .error env.bcryptArgError

/-- The body of the `try` block of `POST /register` (lines 53-75). -/
def registerTry (env : Env) (st : Store) (req : Req) : Except JsError (Response × Store) := do
  let existingUser ← User.findOne env st.users req.body.email
  if existingUser.isSome then
    return (json 400 [("status", .str "error"), ("error", .str "Duplicate email")], st)
  let hashedPassword ← bcryptHash env req.body.password
  let newUser : NewUser :=
    { _id := env.newObjectId, name := req.body.name, email := req.body.email,
      password := some hashedPassword }
  let (newUser, users) ← User.save env st.users newUser
  let token := env.jwtSign
    { userId := newUser._id, name := newUser.name, email := newUser.email } (secret env)
  return (json 200 [("status", .str "ok"), ("token", .str token)], { st with users := users })

/-- Lines 51-80, `POST /register`. -/
def postRegister (env : Env) (st : Store) (req : Req) : Result :=
  match registerTry env st req with
  | .ok (res, st') => { res := res, store := st', log := [] }
  | .error error =>
    { res := json 500 [("status", .str "error"), ("error", .str "Internal Server Error")],
      store := st, log := [error.stack] }

/-- The body of the `try` block of `POST /login` (lines 84-98). -/
def loginTry (env : Env) (st : Store) (req : Req) : Except JsError Response := do
  let user ← User.findOne env st.users req.body.email
  match user with
  | none =>
    return json 401 [("status", .str "error"), ("error", .str "Invalid credentials")]
  | some user =>
    let ok ← bcryptCompare env req.body.password user.password
    if !ok then
      return json 401 [("status", .str "error"), ("error", .str "Invalid credentials")]
    let token := env.jwtSign
      { userId := user._id, name := user.name, email := user.email } (secret env)
    return json 200 [("status", .str "ok"), ("user", .str token)]

/-- Lines 82-103, `POST /login`. -/
def postLogin (env : Env) (st : Store) (req : Req) : Result :=
  match loginTry env st req with
  | .ok res => { res := res, store := st, log := [] }
  | .error error =>
    { res := json 500 [("status", .str "error"), ("error", .str "Internal Server Error")],
      store := st, log := [error.stack] }

/-- The telemetry sample built from the body (lines 116-122 and 146-152). -/
def sampleOf (env : Env) (body : ReqBody) : DynamicData :=
  { timestamp := env.now, temperature := body.temperature, humidity := body.humidity,
    soilMoisture := body.soilMoisture, powerState := body.powerState }

/-- The document built at lines 139-154 for the authenticated `user`. -/
def newDeviceDoc (env : Env) (req : Req) (user : User) : NewDevice :=
  { _id := env.newObjectId, deviceName := req.body.deviceName,
    deviceCode := req.body.deviceCode, deviceNumber := req.body.deviceNumber,
    apiKey := generateApiKey env, lastConnected := env.now,
    location := req.body.location, cropType := req.body.cropType,
    dynamicData := [sampleOf env req.body], userId := user._id }

/-- Lines 133-162, the second handler of `POST /newDevice`: create a device for `req.user`. -/
def postNewDeviceCreate (env : Env) (st : Store) (req : Req) (user : User) : Result :=
  let newDevice := newDeviceDoc env req user
  match DeviceModel.saveNew env st.devices newDevice with
  | .ok devices =>
    { res := json 200 [("status", .str "success"),
                       ("message", .str "New device and data created successfully"),
                       ("apiKey", .str newDevice.apiKey)],
      store := { st with devices := devices }, log := [] }
  | .error error =>
    { res := json 500 [("status", .str "error"), ("error", .str error.message)],
      store := st, log := [error.stack] }

/-- The body of the `try` block of the first handler of `POST /newDevice` (lines 109-128):
`none` stands for the hand-over to `authenticateUser`. -/
def newDeviceTry (env : Env) (st : Store) (req : Req) :
    Except JsError (Option (Response × Store)) := do
  let existingDevice ← DeviceModel.findOneByApiKey env st.devices req.body.apiKey
  match existingDevice with
  | some existingDevice =>
    let pushed : Device :=
      { existingDevice with
        dynamicData := existingDevice.dynamicData ++ [sampleOf env req.body] }
    let devices ← DeviceModel.saveExisting env st.devices pushed
    return some (json 200 [("status", .str "success"),
                           ("message", .str "Data updated successfully")],
                 { st with devices := devices })
  | none => return none

/-- Lines 107-162, `POST /newDevice`: both handlers and the middleware between them. -/
def postNewDevice (env : Env) (st : Store) (req : Req) : Result :=
  match newDeviceTry env st req with
  | .ok (some (res, st')) => { res := res, store := st', log := [] }
  | .ok none =>
    match authenticateUser env st req with
    | .error res => { res := res, store := st, log := [] }
    | .ok user => postNewDeviceCreate env st req user
  | .error error =>
    { res := json 500 [("status", .str "error"), ("error", .str error.message)],
      store := st, log := [error.stack] }

/-- Lines 165-172, `GET /devices`. -/
def getDevices (env : Env) (st : Store) (req : Req) : Result :=
  match authenticateUser env st req with
  | .error res => { res := res, store := st, log := [] }
  | .ok user =>
    match DeviceModel.find env st.devices user._id with
    | .ok devices => { res := { status := 200, body := .arr devices }, store := st, log := [] }
    | .error error =>
      { res := json 500 [("message", .str error.message)], store := st, log := [] }

/-- Lines 175-192, `GET /devices/:deviceName`. -/
def getDeviceByName (env : Env) (st : Store) (deviceName : String) : Result :=
  match DeviceModel.findOneByName env st.devices deviceName with
  | .ok none =>
    { res := json 404 [("status", .str "error"), ("error", .str "Device not found")],
      store := st, log := [] }
  | .ok (some device) =>
    { res := json 200 [("status", .str "success"), ("device", .doc device)],
      store := st, log := [] }
  | .error error =>
    { res := json 500 [("status", .str "error"), ("error", .str "Internal Server Error")],
      store := st, log := [error.stack] }

/-- Lines 196-207, `DELETE /devices/:id`. -/
def deleteDevice (env : Env) (st : Store) (req : Req) (id : ObjectId) : Result :=
  match authenticateUser env st req with
  | .error res => { res := res, store := st, log := [] }
  | .ok user =>
    match DeviceModel.findOneAndDelete env st.devices id user._id with
    | .ok (none, _) =>
      { res := json 404 [("message", .str "Device not found")], store := st, log := [] }
    | .ok (some _, devices) =>
      { res := json 200 [("message", .str "Device Deleted Successfully")],
        store := { st with devices := devices }, log := [] }
    | .error error =>
      { res := json 500 [("message", .str error.message)], store := st, log := [] }

/-- The router: one request against the store. -/
def handle (env : Env) (st : Store) (route : Route) (req : Req) : Result :=
  match route with
  | .register => postRegister env st req
  | .login => postLogin env st req
  | .newDevice => postNewDevice env st req
  | .devices => getDevices env st req
  | .deviceByName deviceName => getDeviceByName env st deviceName
  | .deleteDevice id => deleteDevice env st req id

/-! ## What a response discloses -/

/-- The apiKeys a field of an object body carries: the one of a serialised device
document, or the value of a field that is itself called `apiKey`. -/
def fieldApiKeys : String × JsonValue → List String
  | (_, .doc d) => [d.apiKey]
  | (name, .str s) => if name = "apiKey" then [s] else []

/-- The apiKeys a response body carries. -/
def Body.apiKeys : Body → List String
  | .obj fields => fields.flatMap fieldApiKeys
  | .arr docs => docs.map (fun d => d.apiKey)

/-- The same store with every device's apiKey rewritten by `f`. -/
def Store.mapApiKeys (f : Device → String) (st : Store) : Store :=
  { st with devices := st.devices.map (fun d => { d with apiKey := f d }) }

/-- The `_id` values of the device collection are pairwise distinct, as the store
guarantees for every collection. -/
def Store.uniqueDeviceIds (st : Store) : Prop :=
  (st.devices.map (fun d => d._id)).Nodup

instance (st : Store) : Decidable st.uniqueDeviceIds := by
  unfold Store.uniqueDeviceIds
  infer_instance

/-! ## A concrete environment and store, for evaluating the handlers -/

namespace Sample

/-- Ann, the owner of the sample devices. -/
def ann : User :=
  { _id := 1, name := "Ann", email := "ann@farm.test", password := some "h:pw", quote := none }

/-- Bob, who owns one device. -/
def bob : User :=
  { _id := 2, name := "Bob", email := "bob@farm.test", password := some "h:pw2", quote := none }

/-- Ann's device; its apiKey is the hex form of sixteen bytes 0xab. -/
def pump : Device :=
  { _id := 10, deviceName := "pump", deviceCode := none, deviceNumber := some 7,
    apiKey := "abababababababababababababababab", lastConnected := 1000,
    location := some "north", cropType := none,
    dynamicData := [{ timestamp := 1000, temperature := some 21, humidity := none,
                      soilMoisture := none, powerState := some true }],
    userId := 1 }

/-- Bob's device. -/
def valve : Device :=
  { _id := 11, deviceName := "valve", deviceCode := none, deviceNumber := none,
    apiKey := "00112233445566778899aabbccddeeff", lastConnected := 1500,
    location := none, cropType := none, dynamicData := [], userId := 2 }

/-- A store with two users and one device each. -/
def store : Store :=
  { users := [ann, bob], devices := [pump, valve] }

/-- The device a creation request by Ann for `gate` leaves in the store. -/
def gate : Device :=
  { _id := 12, deviceName := "gate", deviceCode := some "G-1", deviceNumber := some 3,
    apiKey := "abababababababababababababababab", lastConnected := 2000,
    location := some "south", cropType := some "maize",
    dynamicData := [{ timestamp := 2000, temperature := some 19, humidity := none,
                      soilMoisture := some 55, powerState := none }],
    userId := 1 }

/-- An environment in which no store call throws: the tokens are `t1` (Ann), `t2` (Bob)
and `t12` (the user registered next), `t9` verifies to a user that does not exist, and
every other token is invalid. -/
def env : Env :=
  { JWT_SECRET := none
    now := 2000
    newObjectId := 12
    randomBytes := fun n => List.replicate n 171
    jwtSign := fun p _ =>
      if p.userId = 1 then "t1" else if p.userId = 2 then "t2"
      else if p.userId = 12 then "t12" else "t9"
    jwtVerify := fun t _ =>
      if t = "t1" then some { userId := 1, name := "Ann", email := "ann@farm.test" }
      else if t = "t2" then some { userId := 2, name := "Bob", email := "bob@farm.test" }
      else if t = "t12" then some { userId := 12, name := "Cy", email := "cy@farm.test" }
      else if t = "t9" then some { userId := 9, name := "Zed", email := "zed@farm.test" }
      else none
    bcryptHash := fun p => "h:" ++ p
    bcryptCompare := fun p h => h == "h:" ++ p
    bcryptArgError := { message := "data and hash arguments required", stack := "at bcrypt" }
    validationError := fun p => { message := "validation failed: " ++ p, stack := "at validate" }
    duplicateKeyError := fun p => { message := "E11000 duplicate key: " ++ p, stack := "at insert" }
    dbFault := fun _ => none }

/-- A registration with an email no sample user has. -/
def signUp : Req :=
  { body := { name := some "Cy", email := some "cy@farm.test", password := some "pw3" } }

/-- A registration with the email of Ann. -/
def signUpAgain : Req :=
  { body := { name := some "Ann B", email := some "ann@farm.test", password := some "pw4" } }

/-- A telemetry push carrying the apiKey of `pump` and an invalid token. -/
def push : Req :=
  { token := some "garbage",
    body := { apiKey := some "abababababababababababababababab", temperature := some 25,
              humidity := some 40, powerState := some false } }

/-- A creation request by Ann for a device named `gate`. -/
def create : Req :=
  { token := some "t1",
    body := { deviceName := some "gate", deviceCode := some "G-1", deviceNumber := some 3,
              location := some "south", cropType := some "maize", temperature := some 19,
              soilMoisture := some 55 } }

end Sample

/-! ## Basic facts about the store calls -/

theorem dbCall_of_storeUp {env : Env} (hup : env.storeUp) (c : DbCall) :
    dbCall env c = .ok () := by
  simp [dbCall, hup c]

theorem findOneByApiKey_of_storeUp {env : Env} (hup : env.storeUp) (devices : List Device)
    (k : String) :
    DeviceModel.findOneByApiKey env devices (some k)
      = .ok (devices.find? (fun d => d.apiKey == k)) := by
  simp [DeviceModel.findOneByApiKey, dbCall_of_storeUp hup, bind, Except.bind, pure, Except.pure]

theorem saveExisting_of_storeUp {env : Env} (hup : env.storeUp) (devices : List Device)
    (doc : Device) :
    DeviceModel.saveExisting env devices doc
      = .ok (DeviceModel.updateDynamicData doc._id doc.dynamicData devices) := by
  simp [DeviceModel.saveExisting, dbCall_of_storeUp hup, bind, Except.bind, pure, Except.pure]

/-- With distinct ids, the write of `save()` lands on the very document `findOne` answered. -/
theorem updateDynamicData_of_find (k : String) (data : List DynamicData) :
    ∀ (l : List Device) (d : Device), (l.map (fun x => x._id)).Nodup →
      l.find? (fun x => x.apiKey == k) = some d →
      ∃ pre post, l = pre ++ d :: post ∧ (∀ x ∈ pre, x.apiKey ≠ k) ∧ d.apiKey = k ∧
        DeviceModel.updateDynamicData d._id data l
          = pre ++ { d with dynamicData := data } :: post := by
  intro l
  induction l with
  | nil => intro d _ h; simp at h
  | cons x xs ih =>
    intro d hnd hfind
    rw [List.map_cons, List.nodup_cons] at hnd
    by_cases hx : x.apiKey = k
    · have hb : (x.apiKey == k) = true := by simpa using hx
      have hd : x = d := by
        rw [List.find?_cons, hb] at hfind
        exact Option.some.inj hfind
      subst hd
      exact ⟨[], xs, rfl, by simp, hx, by simp [DeviceModel.updateDynamicData]⟩
    · have hb : (x.apiKey == k) = false := by simpa using hx
      have hfind' : xs.find? (fun y => y.apiKey == k) = some d := by
        rw [List.find?_cons, hb] at hfind
        exact hfind
      obtain ⟨pre, post, hl, hpre, hk, hupd⟩ := ih d hnd.2 hfind'
      have hmem : d ∈ xs := by rw [hl]; simp
      have hne : x._id ≠ d._id := by
        intro h
        exact hnd.1 (List.mem_map.mpr ⟨d, hmem, h.symm⟩)
      refine ⟨x :: pre, post, by simp [hl], ?_, hk, ?_⟩
      · intro y hy
        rcases List.mem_cons.mp hy with rfl | hy
        · exact hx
        · exact hpre y hy
      · simp [DeviceModel.updateDynamicData, hne, hupd]

/-- C1. A `POST /newDevice` whose body apiKey is the apiKey of a stored device is answered
200 `success` / `Data updated successfully`; exactly one sample built from the body is
appended to the end of the `dynamicData` of that device (the first one carrying the key),
every other document and the number of devices stay as they were, and the outcome is the
same for every value of the `x-access-token` header, absent, invalid or valid. -/
theorem newDevice_append_without_token (env : Env) (hup : env.storeUp) (st : Store)
    (hids : st.uniqueDeviceIds) (req : Req) (k : String) (hk : req.body.apiKey = some k)
    (hmatch : ∃ d ∈ st.devices, d.apiKey = k) :
    ∃ pre d post, st.devices = pre ++ d :: post ∧ d.apiKey = k ∧ (∀ x ∈ pre, x.apiKey ≠ k) ∧
      ∀ token : Option String,
        postNewDevice env st { req with token := token } =
          { res := json 200 [("status", .str "success"),
                             ("message", .str "Data updated successfully")],
            store := { st with devices :=
              pre ++ { d with dynamicData := d.dynamicData ++ [sampleOf env req.body] } :: post },
            log := [] } ∧
        (postNewDevice env st { req with token := token }).store.devices.length
          = st.devices.length := by
  obtain ⟨d0, hd0, hd0k⟩ := hmatch
  have hsome : (st.devices.find? (fun x => x.apiKey == k)).isSome := by
    rw [List.find?_isSome]
    exact ⟨d0, hd0, by simp [hd0k]⟩
  obtain ⟨d, hfind⟩ := Option.isSome_iff_exists.mp hsome
  obtain ⟨pre, post, hl, hpre, hdk, hupd⟩ :=
    updateDynamicData_of_find k (d.dynamicData ++ [sampleOf env req.body]) st.devices d hids hfind
  refine ⟨pre, d, post, hl, hdk, hpre, ?_⟩
  intro token
  have hres : postNewDevice env st { req with token := token } =
      { res := json 200 [("status", .str "success"),
                         ("message", .str "Data updated successfully")],
        store := { st with devices :=
          pre ++ { d with dynamicData := d.dynamicData ++ [sampleOf env req.body] } :: post },
        log := [] } := by
    simp [postNewDevice, newDeviceTry, hk, findOneByApiKey_of_storeUp hup, hfind,
      saveExisting_of_storeUp hup, hupd, bind, Except.bind, pure, Except.pure]
  refine ⟨hres, ?_⟩
  rw [hres, hl]
  simp

/-- The append path at the sample push, which carries the apiKey of `pump` and a token
that `jwt.verify` rejects. -/
theorem newDevice_append_without_token_witness :
    Sample.env.storeUp ∧ Sample.store.uniqueDeviceIds ∧
    Sample.push.body.apiKey = some Sample.pump.apiKey ∧
    ∃ pre d post, Sample.store.devices = pre ++ d :: post ∧ d.apiKey = Sample.pump.apiKey ∧
      (∀ x ∈ pre, x.apiKey ≠ Sample.pump.apiKey) ∧
      ∀ token : Option String,
        postNewDevice Sample.env Sample.store { Sample.push with token := token } =
          { res := json 200 [("status", .str "success"),
                             ("message", .str "Data updated successfully")],
            store := { Sample.store with devices :=
              pre ++ { d with dynamicData :=
                d.dynamicData ++ [sampleOf Sample.env Sample.push.body] } :: post },
            log := [] } ∧
        (postNewDevice Sample.env Sample.store { Sample.push with token := token }).store.devices.length
          = Sample.store.devices.length :=
  ⟨fun _ => rfl, by decide, rfl,
    newDevice_append_without_token Sample.env (fun _ => rfl) Sample.store (by decide)
      Sample.push Sample.pump.apiKey rfl ⟨Sample.pump, by decide, rfl⟩⟩

/-- A user the middleware lets through is a stored user. -/
theorem authenticateUser_mem (env : Env) (st : Store) (req : Req) (U : User)
    (h : authenticateUser env st req = .ok U) : U ∈ st.users := by
  unfold authenticateUser at h
  split at h
  · simp at h
  · split at h
    · simp at h
    · split at h
      · simp at h
      · split at h
        · simp at h
        · simp at h
        · rename_i user hfind
          simp only [User.findById, bind, Except.bind, pure, Except.pure] at hfind
          split at hfind
          · simp at hfind
          · simp only [Except.ok.injEq] at hfind h
            subst h
            exact List.mem_of_find?_eq_some hfind

/-- When `newDevice.save()` succeeds, the name was present and not empty, neither the
`_id` nor the name was in use, and the collection gained the document at its end. -/
theorem saveNew_ok (env : Env) (devices : List Device) (d : NewDevice) (devices' : List Device)
    (h : DeviceModel.saveNew env devices d = .ok devices') :
    ∃ name, d.deviceName = some name ∧ name ≠ "" ∧
      (∀ x ∈ devices, x._id ≠ d._id) ∧ (∀ x ∈ devices, x.deviceName ≠ name) ∧
      devices' = devices ++ [d.stored name] := by
  unfold DeviceModel.saveNew at h
  cases hn : d.deviceName with
  | none => simp [hn, requiredString, bind, Except.bind] at h
  | some name =>
    by_cases hne : name = ""
    · simp [hn, hne, requiredString, bind, Except.bind] at h
    · simp only [hn, requiredString, hne, if_false, bind, Except.bind] at h
      cases hc : dbCall env .deviceSave with
      | error e => simp [hc] at h
      | ok u =>
        simp only [hc] at h
        split at h
        · simp at h
        · rename_i hid
          split at h
          · simp at h
          · rename_i hname
            simp only [pure, Except.pure, Except.ok.injEq] at h
            refine ⟨name, rfl, hne, ?_, ?_, ?_⟩
            · intro x hx hxe
              exact hid (List.any_eq_true.mpr ⟨x, hx, by simp [hxe]⟩)
            · intro x hx hxe
              exact hname (List.any_eq_true.mpr ⟨x, hx, by simp [hxe]⟩)
            · rw [← h]

/-- With the store up, `newDevice.save()` succeeds as soon as the name is present, not
empty and unused, and the new `_id` is unused. -/
theorem saveNew_succeeds (env : Env) (hup : env.storeUp) (devices : List Device) (d : NewDevice)
    (name : String) (hn : d.deviceName = some name) (hne : name ≠ "")
    (hid : ∀ x ∈ devices, x._id ≠ d._id) (hname : ∀ x ∈ devices, x.deviceName ≠ name) :
    DeviceModel.saveNew env devices d = .ok (devices ++ [d.stored name]) := by
  have h1 : devices.any (fun x => x._id == d._id) = false := by
    rw [List.any_eq_false]
    intro x hx
    simpa using hid x hx
  have h2 : devices.any (fun x => x.deviceName == name) = false := by
    rw [List.any_eq_false]
    intro x hx
    simpa using hname x hx
  simp [DeviceModel.saveNew, hn, requiredString, hne, dbCall_of_storeUp hup, h1, h2, bind,
    Except.bind, pure, Except.pure, NewDevice.stored]

/-- What `findOneAndDelete` finds and leaves, when some document matches. -/
theorem find_eraseP_of_exists (p : Device → Bool) :
    ∀ l : List Device, (∃ d ∈ l, p d = true) →
      ∃ pre d post, l = pre ++ d :: post ∧ p d = true ∧ (∀ x ∈ pre, p x = false) ∧
        l.find? p = some d ∧ l.eraseP p = pre ++ post := by
  intro l
  induction l with
  | nil => intro h; obtain ⟨d, hd, _⟩ := h; simp at hd
  | cons x xs ih =>
    intro h
    cases hx : p x with
    | true =>
      exact ⟨[], x, xs, rfl, hx, by simp, by simp [List.find?_cons, hx],
        by simp [List.eraseP_cons, hx]⟩
    | false =>
      have h' : ∃ d ∈ xs, p d = true := by
        obtain ⟨d, hd, hpd⟩ := h
        rcases List.mem_cons.mp hd with rfl | hd
        · rw [hx] at hpd; cases hpd
        · exact ⟨d, hd, hpd⟩
      obtain ⟨pre, d, post, hl, hpd, hpre, hfind, herase⟩ := ih h'
      refine ⟨x :: pre, d, post, by simp [hl], hpd, ?_, ?_, ?_⟩
      · intro y hy
        rcases List.mem_cons.mp hy with rfl | hy
        · exact hx
        · exact hpre y hy
      · simp [List.find?_cons, hx, hfind]
      · simp [List.eraseP_cons, hx, herase]

theorem findOneAndDelete_of_storeUp {env : Env} (hup : env.storeUp) (devices : List Device)
    (id userId : ObjectId) :
    DeviceModel.findOneAndDelete env devices id userId
      = .ok (devices.find? (fun d => d._id == id && d.userId == userId),
             devices.eraseP (fun d => d._id == id && d.userId == userId)) := by
  simp [DeviceModel.findOneAndDelete, dbCall_of_storeUp hup, bind, Except.bind, pure,
    Except.pure]

/-- C4. An authenticated `DELETE /devices/:id` by user `U`: when a stored device has that
id and `userId` = `U._id`, the answer is 200 and exactly that document is removed (every
other one stays, in place); otherwise (no device with that id, or one owned by another
user) the answer is 404 `Device not found`, not 401, and the store is unchanged. -/
theorem deleteDevice_owner_only (env : Env) (hup : env.storeUp) (st : Store) (req : Req)
    (U : User) (hauth : authenticateUser env st req = .ok U) (id : ObjectId) :
    ((∃ d ∈ st.devices, d._id = id ∧ d.userId = U._id) →
      ∃ pre d post, st.devices = pre ++ d :: post ∧ d._id = id ∧ d.userId = U._id ∧
        (∀ x ∈ pre, ¬ (x._id = id ∧ x.userId = U._id)) ∧
        deleteDevice env st req id =
          { res := json 200 [("message", .str "Device Deleted Successfully")],
            store := { users := st.users, devices := pre ++ post }, log := [] }) ∧
    ((¬ ∃ d ∈ st.devices, d._id = id ∧ d.userId = U._id) →
      deleteDevice env st req id =
        { res := json 404 [("message", .str "Device not found")], store := st, log := [] }) := by
  constructor
  · intro h
    have h' : ∃ d ∈ st.devices, (fun d : Device => d._id == id && d.userId == U._id) d = true := by
      obtain ⟨d, hd, h1, h2⟩ := h
      exact ⟨d, hd, by simp [h1, h2]⟩
    obtain ⟨pre, d, post, hl, hpd, hpre, hfind, herase⟩ := find_eraseP_of_exists _ _ h'
    simp only [Bool.and_eq_true, beq_iff_eq] at hpd
    refine ⟨pre, d, post, hl, hpd.1, hpd.2, ?_, ?_⟩
    · intro x hx hxe
      have := hpre x hx
      simp [hxe.1, hxe.2] at this
    · simp [deleteDevice, hauth, findOneAndDelete_of_storeUp hup, hfind, herase]
  · intro h
    have hnone : ∀ x ∈ st.devices, ¬ ((x._id == id && x.userId == U._id) = true) := by
      intro x hx hp
      simp only [Bool.and_eq_true, beq_iff_eq] at hp
      exact h ⟨x, hx, hp⟩
    have hfind : st.devices.find? (fun d => d._id == id && d.userId == U._id) = none :=
      List.find?_eq_none.mpr hnone
    simp [deleteDevice, hauth, findOneAndDelete_of_storeUp hup, hfind]

/-- Ann deletes her own `pump` (200) and is refused Bob's `valve` (404, store kept). -/
theorem deleteDevice_owner_only_witness :
    Sample.env.storeUp ∧
    authenticateUser Sample.env Sample.store { token := some "t1" } = .ok Sample.ann ∧
    (∃ d ∈ Sample.store.devices, d._id = 10 ∧ d.userId = Sample.ann._id) ∧
    (deleteDevice Sample.env Sample.store { token := some "t1" } 10).res.status = 200 ∧
    (¬ ∃ d ∈ Sample.store.devices, d._id = 11 ∧ d.userId = Sample.ann._id) ∧
    deleteDevice Sample.env Sample.store { token := some "t1" } 11 =
      { res := json 404 [("message", .str "Device not found")], store := Sample.store,
        log := [] } :=
  ⟨fun _ => rfl, rfl, by decide,
    by
      obtain ⟨pre, d, post, _, _, _, _, h⟩ :=
        (deleteDevice_owner_only Sample.env (fun _ => rfl) Sample.store { token := some "t1" }
          Sample.ann rfl 10).1 (by decide)
      rw [h]
      rfl,
    by decide,
    (deleteDevice_owner_only Sample.env (fun _ => rfl) Sample.store { token := some "t1" }
      Sample.ann rfl 11).2 (by decide)⟩

theorem find_of_storeUp {env : Env} (hup : env.storeUp) (devices : List Device)
    (userId : ObjectId) :
    DeviceModel.find env devices userId
      = .ok (devices.filter (fun d => d.userId == userId)) := by
  simp [DeviceModel.find, dbCall_of_storeUp hup, bind, Except.bind, pure, Except.pure]

/-- Whatever `DeviceModel.find` answers is the owner's part of the collection. -/
theorem find_ok (env : Env) (devices : List Device) (userId : ObjectId) (docs : List Device)
    (h : DeviceModel.find env devices userId = .ok docs) :
    docs = devices.filter (fun d => d.userId == userId) := by
  unfold DeviceModel.find at h
  cases hc : dbCall env .deviceFind with
  | error e => simp [hc, bind, Except.bind] at h
  | ok u =>
    simp only [hc, bind, Except.bind, pure, Except.pure, Except.ok.injEq] at h
    exact h.symm

/-- C7. An authenticated `GET /devices` by user `U`: with the store up the answer is 200
and the array of the stored devices whose `userId` is `U._id`; and whatever the store
does, every document of a returned array is a stored device with `userId` = `U._id`, so
no device owned by another user is ever returned. -/
theorem getDevices_only_own (env : Env) (st : Store) (req : Req) (U : User)
    (hauth : authenticateUser env st req = .ok U) :
    (env.storeUp → getDevices env st req =
      { res := { status := 200,
                 body := .arr (st.devices.filter (fun d => d.userId == U._id)) },
        store := st, log := [] }) ∧
    (∀ docs, (getDevices env st req).res.body = .arr docs →
      ∀ d ∈ docs, d ∈ st.devices ∧ d.userId = U._id) := by
  constructor
  · intro hup
    simp [getDevices, hauth, find_of_storeUp hup]
  · intro docs hbody d hd
    simp only [getDevices, hauth] at hbody
    cases hf : DeviceModel.find env st.devices U._id with
    | error e => simp [hf, json] at hbody
    | ok ds =>
      simp only [hf, Body.arr.injEq] at hbody
      subst hbody
      rw [find_ok env st.devices U._id ds hf] at hd
      simpa using List.mem_filter.mp hd

/-- Ann lists her devices: `pump` and nothing of Bob's. -/
theorem getDevices_only_own_witness :
    authenticateUser Sample.env Sample.store { token := some "t1" } = .ok Sample.ann ∧
    getDevices Sample.env Sample.store { token := some "t1" } =
      { res := { status := 200, body := .arr [Sample.pump] }, store := Sample.store,
        log := [] } ∧
    ∀ d ∈ [Sample.pump], d ∈ Sample.store.devices ∧ d.userId = Sample.ann._id :=
  ⟨rfl,
    (getDevices_only_own Sample.env Sample.store { token := some "t1" } Sample.ann rfl).1
      (fun _ => rfl),
    (getDevices_only_own Sample.env Sample.store { token := some "t1" } Sample.ann rfl).2
      [Sample.pump] rfl⟩

/-- What `User.findOne` answers is the first stored user with the submitted email. -/
theorem findOne_ok (env : Env) (users : List User) (email : Option String) (o : Option User)
    (h : User.findOne env users email = .ok o) :
    (email = none ∧ o = none) ∨ ∃ e, email = some e ∧ o = users.find? (fun u => u.email == e) := by
  unfold User.findOne at h
  cases hc : dbCall env .userFindOne with
  | error e => simp [hc, bind, Except.bind] at h
  | ok u =>
    cases email with
    | none =>
      simp only [hc, bind, Except.bind, pure, Except.pure, Except.ok.injEq] at h
      exact Or.inl ⟨rfl, h.symm⟩
    | some e =>
      simp only [hc, bind, Except.bind, pure, Except.pure, Except.ok.injEq] at h
      exact Or.inr ⟨e, rfl, h.symm⟩

theorem findOne_of_storeUp {env : Env} (hup : env.storeUp) (users : List User) (e : String) :
    User.findOne env users (some e) = .ok (users.find? (fun u => u.email == e)) := by
  simp [User.findOne, dbCall_of_storeUp hup, bind, Except.bind, pure, Except.pure]

/-- When `newUser.save()` succeeds, the collection gained one document at its end,
carrying the submitted email. -/
theorem userSave_ok (env : Env) (users : List User) (u : NewUser) (saved : User)
    (users' : List User) (h : User.save env users u = .ok (saved, users')) :
    u.email = some saved.email ∧ users' = users ++ [saved] := by
  unfold User.save at h
  cases hn : requiredString env "name" u.name with
  | error e => simp [hn, bind, Except.bind] at h
  | ok name =>
    cases he : requiredString env "email" u.email with
    | error e => simp [hn, he, bind, Except.bind] at h
    | ok email =>
      cases hc : dbCall env .userSave with
      | error e => simp [hn, he, hc, bind, Except.bind] at h
      | ok x =>
        simp only [hn, he, hc, bind, Except.bind] at h
        split at h
        · simp at h
        · split at h
          · simp at h
          · simp only [pure, Except.pure, Except.ok.injEq, Prod.mk.injEq] at h
            obtain ⟨h1, h2⟩ := h
            subst h1
            refine ⟨?_, h2.symm⟩
            cases hu : u.email with
            | none => simp [requiredString, hu] at he
            | some e' =>
              by_cases hem : e' = ""
              · simp [requiredString, hu, hem] at he
              · simp [requiredString, hu, hem] at he
                simp [he]

/-- The two ways the `try` block of `/register` ends without throwing: the 400 of a
stored email, or a 200 after one user was added whose email was not stored before. -/
theorem registerTry_ok (env : Env) (st : Store) (req : Req) (res : Response) (st' : Store)
    (h : registerTry env st req = .ok (res, st')) :
    (res.status = 400 ∧ st' = st) ∨
    (res.status = 200 ∧ ∃ e saved, req.body.email = some e ∧ saved.email = e ∧
      (∀ u ∈ st.users, u.email ≠ e) ∧
      st' = { users := st.users ++ [saved], devices := st.devices }) := by
  unfold registerTry at h
  cases hf : User.findOne env st.users req.body.email with
  | error e => simp [hf, bind, Except.bind] at h
  | ok o =>
    cases o with
    | some u =>
      simp only [hf, bind, Except.bind, Option.isSome_some, if_true, pure, Except.pure,
        Except.ok.injEq, Prod.mk.injEq] at h
      left
      exact ⟨by rw [← h.1]; rfl, h.2.symm⟩
    | none =>
      cases hh : bcryptHash env req.body.password with
      | error e => simp [hf, hh, bind, Except.bind, pure, Except.pure] at h
      | ok hashed =>
        cases hs : User.save env st.users
            { _id := env.newObjectId, name := req.body.name, email := req.body.email,
              password := some hashed } with
        | error e => simp [hf, hh, hs, bind, Except.bind, pure, Except.pure] at h
        | ok pr =>
          obtain ⟨saved, users'⟩ := pr
          simp only [hf, hh, hs, bind, Except.bind, Option.isSome_none, pure, Except.pure,
            Except.ok.injEq, Prod.mk.injEq] at h
          simp only [Bool.false_eq_true, if_false, Except.ok.injEq, Prod.mk.injEq] at h
          right
          obtain ⟨hemail, husers⟩ := userSave_ok env st.users _ saved users' hs
          refine ⟨by rw [← h.1]; rfl, saved.email, saved, hemail, rfl, ?_, ?_⟩
          · rcases findOne_ok env st.users req.body.email none hf with ⟨hnone, _⟩ | ⟨e, he, hfind⟩
            · rw [hnone] at hemail; cases hemail
            · rw [he] at hemail
              cases hemail
              intro u hu hue
              have := List.find?_eq_none.mp hfind.symm u hu
              simp [hue] at this
          · rw [← h.2, husers]

/-- A stored email makes `/register` answer 400 and leave everything as it was. -/
theorem postRegister_duplicate (env : Env) (hup : env.storeUp) (st : Store) (req : Req)
    (e : String) (he : req.body.email = some e) (hdup : ∃ u ∈ st.users, u.email = e) :
    postRegister env st req =
      { res := json 400 [("status", .str "error"), ("error", .str "Duplicate email")],
        store := st, log := [] } := by
  obtain ⟨u, hu, hue⟩ := hdup
  have hsome : (st.users.find? (fun x => x.email == e)).isSome := by
    rw [List.find?_isSome]
    exact ⟨u, hu, by simp [hue]⟩
  obtain ⟨u', hfind⟩ := Option.isSome_iff_exists.mp hsome
  simp [postRegister, registerTry, he, findOne_of_storeUp hup, hfind, bind, Except.bind, pure,
    Except.pure]

/-- C9. A `POST /register` with an email a stored user already has is answered 400
`Duplicate email` and leaves the store unchanged; consequently, after a registration
with email `e` that succeeded (200), a second registration with `e` is answered 400,
changes nothing, and the store holds exactly one user with that email. -/
theorem register_duplicate_email (env₁ env₂ : Env) (hup : env₂.storeUp) (st : Store)
    (req₁ req₂ : Req) (e : String) (he₁ : req₁.body.email = some e)
    (he₂ : req₂.body.email = some e) :
    ((∃ u ∈ st.users, u.email = e) →
      postRegister env₂ st req₂ =
        { res := json 400 [("status", .str "error"), ("error", .str "Duplicate email")],
          store := st, log := [] }) ∧
    ((postRegister env₁ st req₁).res.status = 200 →
      postRegister env₂ (postRegister env₁ st req₁).store req₂ =
        { res := json 400 [("status", .str "error"), ("error", .str "Duplicate email")],
          store := (postRegister env₁ st req₁).store, log := [] } ∧
      ((postRegister env₂ (postRegister env₁ st req₁).store req₂).store.users.filter
        (fun u => u.email == e)).length = 1) := by
  constructor
  · exact postRegister_duplicate env₂ hup st req₂ e he₂
  · intro h200
    have hshape : ∃ saved, saved.email = e ∧ (∀ u ∈ st.users, u.email ≠ e) ∧
        (postRegister env₁ st req₁).store
          = { users := st.users ++ [saved], devices := st.devices } := by
      unfold postRegister at h200 ⊢
      cases htry : registerTry env₁ st req₁ with
      | error err => simp [htry, json] at h200
      | ok pr =>
        obtain ⟨res, st'⟩ := pr
        simp only [htry] at h200 ⊢
        rcases registerTry_ok env₁ st req₁ res st' htry with ⟨h400, _⟩ | ⟨_, e', saved, he', hs, hno, hst⟩
        · rw [h400] at h200; cases h200
        · rw [he₁] at he'
          cases he'
          exact ⟨saved, hs, hno, hst⟩
    obtain ⟨saved, hs, hno, hst⟩ := hshape
    have hdup : ∃ u ∈ (postRegister env₁ st req₁).store.users, u.email = e := by
      rw [hst]
      exact ⟨saved, by simp, hs⟩
    have h2 := postRegister_duplicate env₂ hup _ req₂ e he₂ hdup
    refine ⟨h2, ?_⟩
    rw [h2, hst]
    have hnone : st.users.filter (fun u => u.email == e) = [] := by
      rw [List.filter_eq_nil_iff]
      intro u hu
      simpa using hno u hu
    simp [List.filter_append, hnone, hs]

/-- Ann's email is refused at once; Cy registers, and Cy's second attempt is refused. -/
theorem register_duplicate_email_witness :
    Sample.env.storeUp ∧
    (∃ u ∈ Sample.store.users, u.email = "ann@farm.test") ∧
    postRegister Sample.env Sample.store Sample.signUpAgain =
      { res := json 400 [("status", .str "error"), ("error", .str "Duplicate email")],
        store := Sample.store, log := [] } ∧
    (postRegister Sample.env Sample.store Sample.signUp).res.status = 200 ∧
    postRegister Sample.env (postRegister Sample.env Sample.store Sample.signUp).store
        Sample.signUp =
      { res := json 400 [("status", .str "error"), ("error", .str "Duplicate email")],
        store := (postRegister Sample.env Sample.store Sample.signUp).store, log := [] } ∧
    ((postRegister Sample.env (postRegister Sample.env Sample.store Sample.signUp).store
        Sample.signUp).store.users.filter (fun u => u.email == "cy@farm.test")).length = 1 :=
  ⟨fun _ => rfl, by decide,
    (register_duplicate_email Sample.env Sample.env (fun _ => rfl) Sample.store
      Sample.signUpAgain Sample.signUpAgain "ann@farm.test" rfl rfl).1 (by decide),
    by decide,
    (register_duplicate_email Sample.env Sample.env (fun _ => rfl) Sample.store
      Sample.signUp Sample.signUp "cy@farm.test" rfl rfl).2 (by decide)⟩

/-! ## Owner and apiKey of a stored device -/

/-- The write of `save()` on an existing document changes `dynamicData` only. -/
theorem updateDynamicData_keeps (id : ObjectId) (data : List DynamicData) :
    ∀ (l : List Device), ∀ d' ∈ DeviceModel.updateDynamicData id data l,
      ∃ x ∈ l, x._id = d'._id ∧ x.userId = d'.userId ∧ x.apiKey = d'.apiKey := by
  intro l
  induction l with
  | nil => intro d' hd'; simp [DeviceModel.updateDynamicData] at hd'
  | cons x xs ih =>
    intro d' hd'
    unfold DeviceModel.updateDynamicData at hd'
    split at hd'
    · rcases List.mem_cons.mp hd' with rfl | h
      · exact ⟨x, by simp, rfl, rfl, rfl⟩
      · exact ⟨d', List.mem_cons_of_mem _ h, rfl, rfl, rfl⟩
    · rcases List.mem_cons.mp hd' with rfl | h
      · exact ⟨d', by simp, rfl, rfl, rfl⟩
      · obtain ⟨y, hy, h1, h2, h3⟩ := ih d' h
        exact ⟨y, List.mem_cons_of_mem _ hy, h1, h2, h3⟩

/-- The append path leaves the users alone and writes `dynamicData` of one document. -/
theorem newDeviceTry_some (env : Env) (st : Store) (req : Req) (res : Response) (st' : Store)
    (h : newDeviceTry env st req = .ok (some (res, st'))) :
    res = json 200 [("status", .str "success"), ("message", .str "Data updated successfully")] ∧
    st'.users = st.users ∧
    ∃ id data, st'.devices = DeviceModel.updateDynamicData id data st.devices := by
  unfold newDeviceTry at h
  cases hf : DeviceModel.findOneByApiKey env st.devices req.body.apiKey with
  | error e => simp [hf, bind, Except.bind] at h
  | ok o =>
    cases o with
    | none => simp [hf, bind, Except.bind, pure, Except.pure] at h
    | some d =>
      simp only [hf, bind, Except.bind] at h
      unfold DeviceModel.saveExisting at h
      cases hc : dbCall env .deviceSave with
      | error e => simp [hc, bind, Except.bind] at h
      | ok u =>
        simp only [hc, bind, Except.bind, pure, Except.pure, Except.ok.injEq,
          Option.some.injEq, Prod.mk.injEq] at h
        obtain ⟨h1, h2⟩ := h
        subst h2
        exact ⟨h1.symm, rfl, _, _, rfl⟩

/-- Each handler leaves every stored device its `_id`, owner and apiKey: a document of
the collection after the request either agrees on all three with a document that was
there before, or carries an `_id` that no document had. -/
theorem handle_keeps_owner_and_key (env : Env) (st : Store) (route : Route) (req : Req) :
    ∀ d' ∈ (handle env st route req).store.devices,
      (∃ x ∈ st.devices, x._id = d'._id ∧ x.userId = d'.userId ∧ x.apiKey = d'.apiKey) ∨
      (∀ x ∈ st.devices, x._id ≠ d'._id) := by
  have same : ∀ r : Result, r.store.devices = st.devices → ∀ d' ∈ r.store.devices,
      (∃ x ∈ st.devices, x._id = d'._id ∧ x.userId = d'.userId ∧ x.apiKey = d'.apiKey) ∨
      (∀ x ∈ st.devices, x._id ≠ d'._id) := by
    intro r hr d' hd'
    rw [hr] at hd'
    exact Or.inl ⟨d', hd', rfl, rfl, rfl⟩
  cases route with
  | register =>
    apply same
    simp only [handle, postRegister]
    cases htry : registerTry env st req with
    | error e => rfl
    | ok pr =>
      obtain ⟨res, st'⟩ := pr
      rcases registerTry_ok env st req res st' htry with ⟨_, h⟩ | ⟨_, _, _, _, _, _, h⟩ <;>
        simp [h]
  | login =>
    apply same
    simp only [handle, postLogin]
    cases loginTry env st req <;> rfl
  | devices =>
    apply same
    simp only [handle, getDevices]
    cases authenticateUser env st req with
    | error e => rfl
    | ok user =>
      dsimp only
      split <;> rfl
  | deviceByName name =>
    apply same
    simp only [handle, getDeviceByName]
    cases h : DeviceModel.findOneByName env st.devices name with
    | error e => rfl
    | ok o => cases o <;> rfl
  | deleteDevice id =>
    intro d' hd'
    simp only [handle, deleteDevice] at hd'
    cases hauth : authenticateUser env st req with
    | error e =>
      simp only [hauth] at hd'
      exact Or.inl ⟨d', hd', rfl, rfl, rfl⟩
    | ok user =>
      simp only [hauth] at hd'
      cases hdel : DeviceModel.findOneAndDelete env st.devices id user._id with
      | error e =>
        simp only [hdel] at hd'
        exact Or.inl ⟨d', hd', rfl, rfl, rfl⟩
      | ok pr =>
        obtain ⟨o, devices⟩ := pr
        cases o with
        | none =>
          simp only [hdel] at hd'
          exact Or.inl ⟨d', hd', rfl, rfl, rfl⟩
        | some x =>
          simp only [hdel] at hd'
          unfold DeviceModel.findOneAndDelete at hdel
          cases hc : dbCall env .deviceFindOneAndDelete with
          | error e => simp [hc, bind, Except.bind] at hdel
          | ok u =>
            simp only [hc, bind, Except.bind, pure, Except.pure, Except.ok.injEq,
              Prod.mk.injEq] at hdel
            rw [← hdel.2] at hd'
            exact Or.inl ⟨d', List.mem_of_mem_eraseP hd', rfl, rfl, rfl⟩
  | newDevice =>
    intro d' hd'
    simp only [handle, postNewDevice] at hd'
    cases htry : newDeviceTry env st req with
    | error e =>
      simp only [htry] at hd'
      exact Or.inl ⟨d', hd', rfl, rfl, rfl⟩
    | ok o =>
      cases o with
      | some pr =>
        obtain ⟨res, st'⟩ := pr
        simp only [htry] at hd'
        obtain ⟨_, _, id, data, hdev⟩ := newDeviceTry_some env st req res st' htry
        rw [hdev] at hd'
        exact Or.inl (updateDynamicData_keeps id data st.devices d' hd')
      | none =>
        simp only [htry] at hd'
        cases hauth : authenticateUser env st req with
        | error e =>
          simp only [hauth] at hd'
          exact Or.inl ⟨d', hd', rfl, rfl, rfl⟩
        | ok user =>
          simp only [hauth, postNewDeviceCreate] at hd'
          cases hs : DeviceModel.saveNew env st.devices (newDeviceDoc env req user) with
          | error e =>
            simp only [hs] at hd'
            exact Or.inl ⟨d', hd', rfl, rfl, rfl⟩
          | ok devices =>
            simp only [hs] at hd'
            obtain ⟨name, _, _, hid, _, hdev⟩ := saveNew_ok env st.devices _ devices hs
            rw [hdev] at hd'
            rcases List.mem_append.mp hd' with h | h
            · exact Or.inl ⟨d', h, rfl, rfl, rfl⟩
            · right
              have : d' = (newDeviceDoc env req user).stored name := by simpa using h
              subst this
              intro x hx
              exact hid x hx

/-- C8. Every device keeps the owner and the apiKey it was created with: for every
request to any endpoint (and whatever the store calls do), a device that is in the store
before and after the request, identified by its `_id`, has the same `userId` and the
same `apiKey` afterwards; this covers the append path of `POST /newDevice`. -/
theorem owner_and_apiKey_immutable (env : Env) (st : Store) (hids : st.uniqueDeviceIds)
    (route : Route) (req : Req) :
    ∀ d ∈ st.devices, ∀ d' ∈ (handle env st route req).store.devices,
      d'._id = d._id → d'.userId = d.userId ∧ d'.apiKey = d.apiKey := by
  intro d hd d' hd' hid
  rcases handle_keeps_owner_and_key env st route req d' hd' with ⟨x, hx, h1, h2, h3⟩ | hnew
  · have hxd : x = d :=
      List.inj_on_of_nodup_map hids hx hd (by rw [h1, hid])
    subst hxd
    exact ⟨h2.symm, h3.symm⟩
  · exact absurd hid.symm (hnew d hd)

/-- Owner and apiKey of the sample devices across the sample push. -/
theorem owner_and_apiKey_immutable_witness :
    Sample.store.uniqueDeviceIds ∧
    ∀ d ∈ Sample.store.devices,
      ∀ d' ∈ (handle Sample.env Sample.store .newDevice Sample.push).store.devices,
        d'._id = d._id → d'.userId = d.userId ∧ d'.apiKey = d.apiKey :=
  ⟨by decide,
    owner_and_apiKey_immutable Sample.env Sample.store (by decide) .newDevice Sample.push⟩

/-! ## The responses each handler can send -/

/-- The middleware answers 401 with a lone `error` field when it answers itself. -/
theorem authenticateUser_error (env : Env) (st : Store) (req : Req) (r : Response)
    (h : authenticateUser env st req = .error r) :
    ∃ msg, r = json 401 [("error", .str msg)] := by
  unfold authenticateUser at h
  split at h
  · exact ⟨_, (Except.error.inj h).symm⟩
  · split at h
    · exact ⟨_, (Except.error.inj h).symm⟩
    · split at h
      · exact ⟨_, (Except.error.inj h).symm⟩
      · split at h
        · exact ⟨_, (Except.error.inj h).symm⟩
        · exact ⟨_, (Except.error.inj h).symm⟩
        · cases h

/-- The responses of `POST /register`. -/
theorem postRegister_res (env : Env) (st : Store) (req : Req) :
    (postRegister env st req).res
        = json 400 [("status", .str "error"), ("error", .str "Duplicate email")] ∨
    (∃ token, (postRegister env st req).res
        = json 200 [("status", .str "ok"), ("token", .str token)]) ∨
    (postRegister env st req).res
        = json 500 [("status", .str "error"), ("error", .str "Internal Server Error")] := by
  unfold postRegister
  cases htry : registerTry env st req with
  | error e => exact Or.inr (Or.inr rfl)
  | ok pr =>
    obtain ⟨res, st'⟩ := pr
    unfold registerTry at htry
    cases hf : User.findOne env st.users req.body.email with
    | error e => simp [hf, bind, Except.bind] at htry
    | ok o =>
      cases o with
      | some u =>
        simp only [hf, bind, Except.bind, Option.isSome_some, if_true, pure, Except.pure,
          Except.ok.injEq, Prod.mk.injEq] at htry
        exact Or.inl htry.1.symm
      | none =>
        cases hh : bcryptHash env req.body.password with
        | error e => simp [hf, hh, bind, Except.bind, pure, Except.pure] at htry
        | ok hashed =>
          cases hs : User.save env st.users
              { _id := env.newObjectId, name := req.body.name, email := req.body.email,
                password := some hashed } with
          | error e => simp [hf, hh, hs, bind, Except.bind, pure, Except.pure] at htry
          | ok pr =>
            obtain ⟨saved, users'⟩ := pr
            simp only [hf, hh, hs, bind, Except.bind, Option.isSome_none, pure, Except.pure,
              Except.ok.injEq, Prod.mk.injEq] at htry
            simp only [Bool.false_eq_true, if_false, Except.ok.injEq, Prod.mk.injEq] at htry
            exact Or.inr (Or.inl ⟨_, htry.1.symm⟩)

/-- The responses of `POST /login`. -/
theorem postLogin_res (env : Env) (st : Store) (req : Req) :
    (postLogin env st req).res
        = json 401 [("status", .str "error"), ("error", .str "Invalid credentials")] ∨
    (∃ token, (postLogin env st req).res
        = json 200 [("status", .str "ok"), ("user", .str token)]) ∨
    (postLogin env st req).res
        = json 500 [("status", .str "error"), ("error", .str "Internal Server Error")] := by
  unfold postLogin
  cases htry : loginTry env st req with
  | error e => exact Or.inr (Or.inr rfl)
  | ok res =>
    unfold loginTry at htry
    cases hf : User.findOne env st.users req.body.email with
    | error e => simp [hf, bind, Except.bind] at htry
    | ok o =>
      cases o with
      | none =>
        simp only [hf, bind, Except.bind, pure, Except.pure, Except.ok.injEq] at htry
        exact Or.inl htry.symm
      | some u =>
        cases hc : bcryptCompare env req.body.password u.password with
        | error e => simp [hf, hc, bind, Except.bind] at htry
        | ok b =>
          cases b with
          | false =>
            simp [hf, hc, bind, Except.bind, pure, Except.pure] at htry
            exact Or.inl htry.symm
          | true =>
            simp [hf, hc, bind, Except.bind, pure, Except.pure] at htry
            exact Or.inr (Or.inl ⟨_, htry.symm⟩)

/-- The responses of `POST /newDevice`: the only one carrying an apiKey is the success
of a creation, and it carries the apiKey of the one device the store gained. -/
theorem postNewDevice_res (env : Env) (st : Store) (req : Req) :
    ((postNewDevice env st req).store.devices.length = st.devices.length ∧
      ((postNewDevice env st req).res
          = json 200 [("status", .str "success"),
                      ("message", .str "Data updated successfully")] ∨
       (∃ msg, (postNewDevice env st req).res = json 401 [("error", .str msg)]) ∨
       (∃ msg, (postNewDevice env st req).res
          = json 500 [("status", .str "error"), ("error", .str msg)]))) ∨
    (∃ created, (postNewDevice env st req).store.devices = st.devices ++ [created] ∧
      (postNewDevice env st req).res
        = json 200 [("status", .str "success"),
                    ("message", .str "New device and data created successfully"),
                    ("apiKey", .str created.apiKey)]) := by
  unfold postNewDevice
  cases htry : newDeviceTry env st req with
  | error e => exact Or.inl ⟨rfl, Or.inr (Or.inr ⟨_, rfl⟩)⟩
  | ok o =>
    cases o with
    | some pr =>
      obtain ⟨res, st'⟩ := pr
      obtain ⟨hres, _, id, data, hdev⟩ := newDeviceTry_some env st req res st' htry
      refine Or.inl ⟨?_, Or.inl hres⟩
      show st'.devices.length = st.devices.length
      rw [hdev]
      clear hdev htry
      induction st.devices with
      | nil => rfl
      | cons x xs ih =>
        unfold DeviceModel.updateDynamicData
        split
        · rfl
        · simp [ih]
    | none =>
      dsimp only
      cases hauth : authenticateUser env st req with
      | error r =>
        obtain ⟨msg, hmsg⟩ := authenticateUser_error env st req r hauth
        exact Or.inl ⟨rfl, Or.inr (Or.inl ⟨msg, hmsg⟩)⟩
      | ok user =>
        dsimp only [postNewDeviceCreate]
        cases hs : DeviceModel.saveNew env st.devices (newDeviceDoc env req user) with
        | error e => exact Or.inl ⟨rfl, Or.inr (Or.inr ⟨_, rfl⟩)⟩
        | ok devices =>
          obtain ⟨name, _, _, _, _, hdev⟩ := saveNew_ok env st.devices _ devices hs
          exact Or.inr ⟨(newDeviceDoc env req user).stored name, hdev, rfl⟩

/-- The responses of `GET /devices`. -/
theorem getDevices_res (env : Env) (st : Store) (req : Req) :
    (∃ msg, (getDevices env st req).res = json 401 [("error", .str msg)]) ∨
    (∃ U, authenticateUser env st req = .ok U ∧ (getDevices env st req).res
        = { status := 200, body := .arr (st.devices.filter (fun d => d.userId == U._id)) }) ∨
    (∃ msg, (getDevices env st req).res = json 500 [("message", .str msg)]) := by
  unfold getDevices
  cases hauth : authenticateUser env st req with
  | error r =>
    obtain ⟨msg, hmsg⟩ := authenticateUser_error env st req r hauth
    exact Or.inl ⟨msg, hmsg⟩
  | ok user =>
    dsimp only
    cases hf : DeviceModel.find env st.devices user._id with
    | error e => exact Or.inr (Or.inr ⟨_, rfl⟩)
    | ok docs =>
      rw [find_ok env st.devices user._id docs hf]
      exact Or.inr (Or.inl ⟨user, rfl, rfl⟩)

/-- The responses of `GET /devices/:deviceName`. -/
theorem getDeviceByName_res (env : Env) (st : Store) (deviceName : String) :
    (getDeviceByName env st deviceName).res
        = json 404 [("status", .str "error"), ("error", .str "Device not found")] ∨
    (∃ d ∈ st.devices, d.deviceName = deviceName ∧ (getDeviceByName env st deviceName).res
        = json 200 [("status", .str "success"), ("device", .doc d)]) ∨
    (getDeviceByName env st deviceName).res
        = json 500 [("status", .str "error"), ("error", .str "Internal Server Error")] := by
  unfold getDeviceByName
  cases hf : DeviceModel.findOneByName env st.devices deviceName with
  | error e => exact Or.inr (Or.inr rfl)
  | ok o =>
    cases o with
    | none => exact Or.inl rfl
    | some d =>
      refine Or.inr (Or.inl ⟨d, ?_, ?_, rfl⟩)
      all_goals
        unfold DeviceModel.findOneByName at hf
        cases hc : dbCall env .deviceFindOne with
        | error e => simp [hc, bind, Except.bind] at hf
        | ok u =>
          simp only [hc, bind, Except.bind, pure, Except.pure, Except.ok.injEq] at hf
          first
            | exact List.mem_of_find?_eq_some hf
            | simpa using List.find?_some hf

/-- The responses of `DELETE /devices/:id`. -/
theorem deleteDevice_res (env : Env) (st : Store) (req : Req) (id : ObjectId) :
    (∃ msg, (deleteDevice env st req id).res = json 401 [("error", .str msg)]) ∨
    (deleteDevice env st req id).res = json 404 [("message", .str "Device not found")] ∨
    (deleteDevice env st req id).res
        = json 200 [("message", .str "Device Deleted Successfully")] ∨
    (∃ msg, (deleteDevice env st req id).res = json 500 [("message", .str msg)]) := by
  unfold deleteDevice
  cases hauth : authenticateUser env st req with
  | error r =>
    obtain ⟨msg, hmsg⟩ := authenticateUser_error env st req r hauth
    exact Or.inl ⟨msg, hmsg⟩
  | ok user =>
    dsimp only
    cases hf : DeviceModel.findOneAndDelete env st.devices id user._id with
    | error e => exact Or.inr (Or.inr (Or.inr ⟨_, rfl⟩))
    | ok pr =>
      obtain ⟨o, devices⟩ := pr
      cases o with
      | none => exact Or.inr (Or.inl rfl)
      | some d => exact Or.inr (Or.inr (Or.inl rfl))

/-! ## Disclosure of apiKeys -/

theorem findOneAndDelete_mapApiKeys (env : Env) (f : Device → String) (devices : List Device)
    (id userId : ObjectId) :
    (DeviceModel.findOneAndDelete env (devices.map (fun d => { d with apiKey := f d })) id
        userId).map (fun pr => pr.1.isSome)
      = (DeviceModel.findOneAndDelete env devices id userId).map (fun pr => pr.1.isSome) := by
  unfold DeviceModel.findOneAndDelete
  cases hc : dbCall env .deviceFindOneAndDelete with
  | error e => rfl
  | ok u =>
    simp only [bind, Except.bind, pure, Except.pure, Except.map, List.find?_map,
      Except.ok.injEq]
    have hp : ((fun d : Device => d._id == id && d.userId == userId) ∘
        fun d : Device => { d with apiKey := f d })
        = fun d : Device => d._id == id && d.userId == userId := by
      funext d
      rfl
    rw [hp]
    cases List.find? (fun d : Device => d._id == id && d.userId == userId) devices <;> rfl

/-- The response of `DELETE /devices/:id` does not depend on the stored apiKeys. -/
theorem deleteDevice_mapApiKeys (env : Env) (f : Device → String) (st : Store) (req : Req)
    (id : ObjectId) :
    (deleteDevice env (st.mapApiKeys f) req id).res = (deleteDevice env st req id).res := by
  have hauth : authenticateUser env (st.mapApiKeys f) req = authenticateUser env st req := rfl
  unfold deleteDevice
  rw [hauth]
  cases authenticateUser env st req with
  | error r => rfl
  | ok user =>
    dsimp only
    have h := findOneAndDelete_mapApiKeys env f st.devices id user._id
    simp only [Store.mapApiKeys]
    cases h1 : DeviceModel.findOneAndDelete env
        (st.devices.map (fun d => { d with apiKey := f d })) id user._id with
    | error e1 =>
      cases h2 : DeviceModel.findOneAndDelete env st.devices id user._id with
      | error e2 =>
        rw [h1, h2] at h
        simp only [Except.map, Except.error.injEq] at h
        simp [h]
      | ok p2 => rw [h1, h2] at h; simp [Except.map] at h
    | ok p1 =>
      cases h2 : DeviceModel.findOneAndDelete env st.devices id user._id with
      | error e2 => rw [h1, h2] at h; simp [Except.map] at h
      | ok p2 =>
        rw [h1, h2] at h
        simp only [Except.map, Except.ok.injEq] at h
        obtain ⟨o1, l1⟩ := p1
        obtain ⟨o2, l2⟩ := p2
        cases o1 <;> cases o2 <;> simp at h <;> rfl

/-- The response of `POST /register` does not depend on the stored devices. -/
theorem postRegister_mapApiKeys (env : Env) (f : Device → String) (st : Store) (req : Req) :
    (postRegister env (st.mapApiKeys f) req).res = (postRegister env st req).res := by
  have h : registerTry env (st.mapApiKeys f) req
      = (registerTry env st req).map (fun pr => (pr.1, pr.2.mapApiKeys f)) := by
    unfold registerTry
    simp only [Store.mapApiKeys]
    cases User.findOne env st.users req.body.email with
    | error e => rfl
    | ok o =>
      cases o with
      | some u => rfl
      | none =>
        cases hh : bcryptHash env req.body.password with
        | error e => simp [hh, bind, Except.bind, pure, Except.pure, Except.map]
        | ok hashed =>
          cases hs : User.save env st.users
              { _id := env.newObjectId, name := req.body.name, email := req.body.email,
                password := some hashed } with
          | error e => simp [hh, hs, bind, Except.bind, pure, Except.pure, Except.map]
          | ok pr => simp [hh, hs, bind, Except.bind, pure, Except.pure, Except.map]
  unfold postRegister
  rw [h]
  cases registerTry env st req with
  | error e => rfl
  | ok pr => rfl

/-- The response of `POST /login` does not depend on the stored devices. -/
theorem postLogin_mapApiKeys (env : Env) (f : Device → String) (st : Store) (req : Req) :
    (postLogin env (st.mapApiKeys f) req).res = (postLogin env st req).res := by
  have h : loginTry env (st.mapApiKeys f) req = loginTry env st req := rfl
  unfold postLogin
  rw [h]
  cases loginTry env st req <;> rfl

/-- C5 (as amended). An apiKey leaves the server in three places only: the success
response of the creation (the apiKey of the device just created), the array of
`GET /devices` (the caller's own devices) and the document of `GET /devices/:deviceName`
(the named device, for any caller). The responses of `/register`, `/login` and
`DELETE /devices/:id` carry no apiKey and do not depend on the stored apiKeys, and a
`POST /newDevice` that creates nothing (the append path, a 401, a 500) carries none. -/
theorem apiKey_disclosure (env : Env) (st : Store) (route : Route) (req : Req) :
    match route with
    | .register | .login | .deleteDevice _ =>
      (handle env st route req).res.body.apiKeys = [] ∧
      ∀ f, (handle env (st.mapApiKeys f) route req).res = (handle env st route req).res
    | .newDevice =>
      ((handle env st route req).store.devices.length = st.devices.length ∧
        (handle env st route req).res.body.apiKeys = []) ∨
      ∃ created, (handle env st route req).store.devices = st.devices ++ [created] ∧
        (handle env st route req).res.body.apiKeys = [created.apiKey]
    | .devices =>
      (handle env st route req).res.body.apiKeys = [] ∨
      ∃ U, authenticateUser env st req = .ok U ∧
        (handle env st route req).res.body.apiKeys
          = (st.devices.filter (fun d => d.userId == U._id)).map (fun d => d.apiKey)
    | .deviceByName deviceName =>
      (handle env st route req).res.body.apiKeys = [] ∨
      ∃ d ∈ st.devices, d.deviceName = deviceName ∧
        (handle env st route req).res.body.apiKeys = [d.apiKey] := by
  cases route with
  | register =>
    refine ⟨?_, fun f => postRegister_mapApiKeys env f st req⟩
    show (postRegister env st req).res.body.apiKeys = []
    rcases postRegister_res env st req with h | ⟨tok, h⟩ | h <;> rw [h] <;> rfl
  | login =>
    refine ⟨?_, fun f => postLogin_mapApiKeys env f st req⟩
    show (postLogin env st req).res.body.apiKeys = []
    rcases postLogin_res env st req with h | ⟨tok, h⟩ | h <;> rw [h] <;> rfl
  | deleteDevice id =>
    refine ⟨?_, fun f => deleteDevice_mapApiKeys env f st req id⟩
    show (deleteDevice env st req id).res.body.apiKeys = []
    rcases deleteDevice_res env st req id with ⟨m, h⟩ | h | h | ⟨m, h⟩ <;> rw [h] <;> rfl
  | newDevice =>
    show ((postNewDevice env st req).store.devices.length = st.devices.length ∧
        (postNewDevice env st req).res.body.apiKeys = []) ∨
      ∃ created, (postNewDevice env st req).store.devices = st.devices ++ [created] ∧
        (postNewDevice env st req).res.body.apiKeys = [created.apiKey]
    rcases postNewDevice_res env st req with ⟨hl, h | ⟨m, h⟩ | ⟨m, h⟩⟩ | ⟨created, hd, h⟩
    · exact Or.inl ⟨hl, by rw [h]; rfl⟩
    · exact Or.inl ⟨hl, by rw [h]; rfl⟩
    · exact Or.inl ⟨hl, by rw [h]; rfl⟩
    · exact Or.inr ⟨created, hd, by rw [h]; rfl⟩
  | devices =>
    simp only [handle]
    rcases getDevices_res env st req with ⟨m, h⟩ | ⟨U, hU, h⟩ | ⟨m, h⟩
    · exact Or.inl (by rw [h]; rfl)
    · exact Or.inr ⟨U, hU, by rw [h]; rfl⟩
    · exact Or.inl (by rw [h]; rfl)
  | deviceByName deviceName =>
    simp only [handle]
    rcases getDeviceByName_res env st deviceName with h | ⟨d, hd, hn, h⟩ | h
    · exact Or.inl (by rw [h]; rfl)
    · exact Or.inr ⟨d, hd, hn, by rw [h]; rfl⟩
    · exact Or.inl (by rw [h]; rfl)

/-- C5, as stated, fails: `GET /devices/:deviceName`, sent without any token, answers
with the stored document of Bob's device, apiKey included; and `GET /devices` hands Ann
the apiKey of her device. -/
theorem read_endpoints_disclose_apiKey :
    Sample.valve ∈ Sample.store.devices ∧
    Sample.valve.apiKey ∈
      (handle Sample.env Sample.store (.deviceByName "valve") { token := none }).res.body.apiKeys ∧
    Sample.pump ∈ Sample.store.devices ∧
    Sample.pump.apiKey ∈
      (handle Sample.env Sample.store .devices { token := some "t1" }).res.body.apiKeys := by
  decide

/-- C6, at the failing input: the store holds `pump`, whose apiKey is the hex form of
sixteen bytes 0xab, and `randomBytes(16)` answers sixteen bytes 0xab; the creation
succeeds and the store then holds two devices with one apiKey. -/
theorem create_repeats_stored_apiKey :
    generateApiKey Sample.env = Sample.pump.apiKey ∧
    Sample.pump ∈ Sample.store.devices ∧
    postNewDevice Sample.env Sample.store Sample.create =
      { res := json 200 [("status", .str "success"),
                         ("message", .str "New device and data created successfully"),
                         ("apiKey", .str Sample.pump.apiKey)],
        store := { users := Sample.store.users,
                   devices := [Sample.pump, Sample.valve, Sample.gate] },
        log := [] } ∧
    Sample.gate.apiKey = Sample.pump.apiKey ∧ Sample.gate._id ≠ Sample.pump._id ∧
    ¬ ((postNewDevice Sample.env Sample.store Sample.create).store.devices.map
        (fun d => d.apiKey)).Nodup := by
  decide

/-! ## Stacks never reach a response -/

theorem updateDynamicData_ids (id : ObjectId) (data : List DynamicData) (l : List Device) :
    (DeviceModel.updateDynamicData id data l).map (fun d => d._id) = l.map (fun d => d._id) := by
  induction l with
  | nil => rfl
  | cons x xs ih =>
    unfold DeviceModel.updateDynamicData
    split
    · rfl
    · simp [ih]

/-- Every handler keeps the `_id` values of the device collection distinct. -/
theorem handle_uniqueDeviceIds (env : Env) (st : Store) (hids : st.uniqueDeviceIds)
    (route : Route) (req : Req) : (handle env st route req).store.uniqueDeviceIds := by
  have same : ∀ r : Result, r.store.devices = st.devices → r.store.uniqueDeviceIds := by
    intro r hr
    unfold Store.uniqueDeviceIds
    rw [hr]
    exact hids
  cases route with
  | register =>
    apply same
    simp only [handle, postRegister]
    cases htry : registerTry env st req with
    | error e => rfl
    | ok pr =>
      obtain ⟨res, st'⟩ := pr
      rcases registerTry_ok env st req res st' htry with ⟨_, h⟩ | ⟨_, _, _, _, _, _, h⟩ <;>
        simp [h]
  | login =>
    apply same
    simp only [handle, postLogin]
    cases loginTry env st req <;> rfl
  | devices =>
    apply same
    simp only [handle, getDevices]
    cases authenticateUser env st req with
    | error e => rfl
    | ok user =>
      dsimp only
      split <;> rfl
  | deviceByName name =>
    apply same
    simp only [handle, getDeviceByName]
    cases h : DeviceModel.findOneByName env st.devices name with
    | error e => rfl
    | ok o => cases o <;> rfl
  | deleteDevice id =>
    simp only [handle, deleteDevice]
    cases hauth : authenticateUser env st req with
    | error e => exact hids
    | ok user =>
      dsimp only
      cases hdel : DeviceModel.findOneAndDelete env st.devices id user._id with
      | error e => exact hids
      | ok pr =>
        obtain ⟨o, devices⟩ := pr
        cases o with
        | none => exact hids
        | some x =>
          unfold DeviceModel.findOneAndDelete at hdel
          cases hc : dbCall env .deviceFindOneAndDelete with
          | error e => simp [hc, bind, Except.bind] at hdel
          | ok u =>
            simp only [hc, bind, Except.bind, pure, Except.pure, Except.ok.injEq,
              Prod.mk.injEq] at hdel
            show (devices.map (fun d => d._id)).Nodup
            rw [← hdel.2]
            exact List.Nodup.sublist ((List.eraseP_sublist st.devices).map _) hids
  | newDevice =>
    simp only [handle, postNewDevice]
    cases htry : newDeviceTry env st req with
    | error e => exact hids
    | ok o =>
      cases o with
      | some pr =>
        obtain ⟨res, st'⟩ := pr
        obtain ⟨_, _, id, data, hdev⟩ := newDeviceTry_some env st req res st' htry
        show (st'.devices.map (fun d => d._id)).Nodup
        rw [hdev, updateDynamicData_ids]
        exact hids
      | none =>
        dsimp only
        cases hauth : authenticateUser env st req with
        | error e => exact hids
        | ok user =>
          dsimp only [postNewDeviceCreate]
          cases hs : DeviceModel.saveNew env st.devices (newDeviceDoc env req user) with
          | error e => exact hids
          | ok devices =>
            obtain ⟨name, _, _, hid, _, hdev⟩ := saveNew_ok env st.devices _ devices hs
            show (devices.map (fun d => d._id)).Nodup
            rw [hdev, List.map_append, List.nodup_append]
            refine ⟨hids, by simp, ?_⟩
            intro a ha hb
            obtain ⟨x, hx, hxa⟩ := List.mem_map.mp ha
            simp only [List.map_cons, List.map_nil, List.mem_singleton] at hb
            exact hid x hx (hxa.trans hb)

end PractNodeBackend
